import Mathlib

/-!
Shallow embedding of the Redis service layer of the repository
(`src/services/redis_service.py`, `src/services/redis_async_service.py`,
`src/exceptions/redis_exceptions.py`).

The external key-value store is modelled as an association list from keys to
string values (the clients are created with `decode_responses=True`, so values
are text).  Besides the returned value and the updated store, each operation
records the trace of commands it issues to the underlying client, so that
claims such as "no batch fetch is issued" or "the cached value is never read"
are directly expressible.
-/

/-- A key handed to the underlying client.  In normal use keys are strings;
the memoize decorator used bare passes the decorated function object itself
as the key, which we model by the function's object identity. -/
inductive RKey
  | str (s : String)
  | func (fid : Nat)
deriving DecidableEq, Repr

/-- Commands issued to the underlying pooled client. -/
inductive Cmd
  | cGet (k : RKey)
  | cSet (k : RKey) (v : String) (ex : Option Nat)
  | cMget (ks : List RKey)
  | cKeys (pat : String)
  | cExists (k : RKey)
  | cDel (k : RKey)
  | cCloseClient
  | cClosePool
deriving DecidableEq, Repr

/-- The external store: an association list of key/value pairs. -/
abbrev Store := List (RKey × String)

/-- Value lookup in the store (`GET`): `none` is the absent result. -/
def Store.getK : Store → RKey → Option String
  | [], _ => none
  | p :: rest, k => if p.1 = k then some p.2 else Store.getK rest k

/-- Write, overwriting any prior value for that key (`SET`). -/
def Store.setK (s : Store) (k : RKey) (v : String) : Store :=
  (k, v) :: s.filter (fun p => p.1 ≠ k)

/-- The count returned by the `EXISTS` command for a single key. -/
def Store.existsCount (s : Store) (k : RKey) : Nat :=
  if (s.getK k).isSome then 1 else 0

/-- Batch lookup (`MGET`): positionally aligned optional values. -/
def Store.mgetK (s : Store) (ks : List RKey) : List (Option String) :=
  ks.map s.getK

/-- Glob matching of redis `KEYS` patterns over characters, fuelled so the
recursion is structural: `*` matches any run, `?` any single character,
other characters literally.  Every recursive call shrinks pattern-plus-text
by at least one character, so the fuel used below never runs out. -/
def globMatchF : Nat → List Char → List Char → Bool
  | 0, _, _ => false
  | _ + 1, [], [] => true
  | _ + 1, [], _ :: _ => false
  | n + 1, p :: ps, [] =>
    if p = '*' then globMatchF n ps [] else false
  | n + 1, p :: ps, c :: cs =>
    if p = '*' then globMatchF n ps (c :: cs) || globMatchF n (p :: ps) cs
    else if p = '?' then globMatchF n ps cs
    else p = c && globMatchF n ps cs

/-- Glob matching with sufficient fuel. -/
def globMatch (ps cs : List Char) : Bool :=
  globMatchF (ps.length + cs.length + 1) ps cs

/-- A pattern matches a store key only when the key is a string. -/
def RKey.matches (pat : String) : RKey → Bool
  | .str s => globMatch pat.toList s.toList
  | .func _ => false

/-- The keys of the store matching a pattern (`KEYS pattern`). -/
def Store.keysMatching (s : Store) (pat : String) : List RKey :=
  (s.map Prod.fst).filter (RKey.matches pat)

/-- Python-level failures surfaced by the services: the two typed exceptions
from `redis_exceptions.py`, a plain `Exception(...)`, and the
`AttributeError` that accessing an attribute of `None` raises. -/
inductive PyError
  | notInitialized (msg : String)
  | alreadyInitialized (msg : String)
  | genericExc (msg : String)
  | attributeError (msg : String)
deriving DecidableEq, Repr

/-- Default message of `RedisNotInitializedException`. -/
def notInitMsg : String := "RedisService not initialized. Call `initialize()` first"

/-- Default message of `RedisAlreadyInitializedException`. -/
def alreadyInitMsg : String := "RedisService is already initialized."

/-- Message of the plain `Exception` raised by async `get_connection`. -/
def poolNotSetMsg : String := "Connection pool not set. Call set_connection_pool() first."

/-! ## Asynchronous service (`redis_async_service.py`)

`AsyncRedisService` holds `_pool` and `_client`; the client is
`redis.Redis(connection_pool=self._pool)`, modelled by the configuration the
pool was built from.  An operation returns its value, the updated store where
it writes, and the trace of client commands it issues. -/

/-- Parameters `set_connection_pool` builds the pool from. -/
structure PoolCfg where
  host : String
  port : Nat
  db : Nat
  password : Option String
  max_connections : Nat
deriving DecidableEq, Repr

/-- Instance state of `AsyncRedisService`: the `_pool` and `_client` fields. -/
structure ARS where
  pool : Option PoolCfg
  client : Option PoolCfg
deriving DecidableEq, Repr

/-- `set_connection_pool`: builds the pool and a bound client (under the lock). -/
def AsyncRedisService.set_connection_pool (cfg : PoolCfg) (_svc : ARS) : ARS :=
  { pool := some cfg, client := some cfg }

/-- `get_connection`: returns the client, or raises the plain
`Exception("Connection pool not set. ...")` when `_client is None`. -/
def AsyncRedisService.get_connection (svc : ARS) : Except PyError PoolCfg :=
  match svc.client with
  | none => .error (.genericExc poolNotSetMsg)
  | some c => .ok c

/-- `aclose`: closes client then pool (when present) and clears both fields. -/
def AsyncRedisService.aclose (svc : ARS) : ARS × List Cmd :=
  ({ pool := none, client := none },
    (if svc.client.isSome then [Cmd.cCloseClient] else []) ++
      (if svc.pool.isSome then [Cmd.cClosePool] else []))

/-- `__aexit__` of the async context manager: it just awaits `aclose`. -/
def AsyncRedisService.aexit (svc : ARS) : ARS × List Cmd :=
  AsyncRedisService.aclose svc

/-- `get(key)`: fetch a single value through the client. -/
def AsyncRedisService.get (svc : ARS) (store : Store) (k : RKey) :
    Except PyError (Option String × List Cmd) :=
  match AsyncRedisService.get_connection svc with
  | .error e => .error e
  | .ok _ => .ok (store.getK k, [Cmd.cGet k])

/-- `set(key, value, expire)`: write through the client; redis returns `True`. -/
def AsyncRedisService.set (svc : ARS) (store : Store) (k : RKey) (v : String)
    (expire : Option Nat) : Except PyError (Bool × Store × List Cmd) :=
  match AsyncRedisService.get_connection svc with
  | .error e => .error e
  | .ok _ => .ok (true, store.setK k v, [Cmd.cSet k v expire])

/-- `mget(keys)`: batch fetch, positionally aligned. -/
def AsyncRedisService.mget (svc : ARS) (store : Store) (ks : List RKey) :
    Except PyError (List (Option String) × List Cmd) :=
  match AsyncRedisService.get_connection svc with
  | .error e => .error e
  | .ok _ => .ok (store.mgetK ks, [Cmd.cMget ks])

/-- `get_by_pattern(pattern)`: list matching keys; if none, return the empty
mapping without a batch fetch; otherwise zip the keys with their `mget`. -/
def AsyncRedisService.get_by_pattern (svc : ARS) (store : Store) (pat : String) :
    Except PyError (List (RKey × Option String) × List Cmd) :=
  match AsyncRedisService.get_connection svc with
  | .error e => .error e
  | .ok _ =>
    let ks := store.keysMatching pat
    if ks.isEmpty then .ok ([], [Cmd.cKeys pat])
    else .ok (ks.zip (store.mgetK ks), [Cmd.cKeys pat, Cmd.cMget ks])

/-- The comparison stage of `exists`: the code returns `count == 1`. -/
def existsFromCount (n : Nat) : Bool := n == 1

/-- `exists(key)`: the client count compared to exactly 1. -/
def AsyncRedisService.existsOp (svc : ARS) (store : Store) (k : RKey) :
    Except PyError (Bool × List Cmd) :=
  match AsyncRedisService.get_connection svc with
  | .error e => .error e
  | .ok _ => .ok (existsFromCount (store.existsCount k), [Cmd.cExists k])

/-! ## The memoizing decorator `set_decorator`

The wrapped operation is an arbitrary asynchronous callable; we model it as a
state transformer over its own private state together with an object identity
(`functools.wraps` keeps the function a first-class object that can itself
serve as a store key when the decorator is used bare). -/

/-- A Python callable: object identity plus behaviour.  `run` consumes the
callable's private state and yields the next state and the string result. -/
structure PyFunc (A : Type) where
  fid : Nat
  run : A → A × String

/-- The type of the `wrapper` closure produced by the decorator: given the
callable's private state, the service and the store, it either raises or
yields the returned result, the private state after the call, the updated
store, and the trace of client commands the wrapper itself issued. -/
abbrev Wrapped (A : Type) :=
  A → ARS → Store → Except PyError (String × A × Store × List Cmd)

/-- The inner `wrapper`: `result = await func(...)`, then
`await self.set(key, result, expire=expire)`, then `return result`. -/
def mkWrapper (storeKey : RKey) (expire : Option Nat) (f : PyFunc A) :
    Wrapped A :=
  fun a svc store =>
    let p := f.run a
    match AsyncRedisService.set svc store storeKey p.2 expire with
    | .error e => .error e
    | .ok q => .ok (p.2, p.1, q.2.1, q.2.2)

/-- The `key` argument of `set_decorator`: a literal key, or — in bare
decorator usage — the decorated callable itself. -/
inductive KeyArg (A : Type)
  | strKey (s : String)
  | callable (f : PyFunc A)

/-- What the wrapper's `self.set(key, ...)` call receives: the raw `key`
argument (the function object itself in bare usage). -/
def KeyArg.toRKey : KeyArg A → RKey
  | .strKey s => .str s
  | .callable f => .func f.fid

/-- What `set_decorator` returns: either the intermediate `decorator`, or —
when `callable(key)` — the wrapped callable directly. -/
inductive DecResult (A : Type)
  | decorator (d : PyFunc A → Wrapped A)
  | wrapped (w : Wrapped A)

/-- `set_decorator(key, expire)`: builds `decorator`; returns it when the key
is not callable, otherwise applies it to the key in place
(`return decorator if callable(key) is False else decorator(key)`). -/
def AsyncRedisService.set_decorator (key : KeyArg A) (expire : Option Nat) :
    DecResult A :=
  let d : PyFunc A → Wrapped A := fun f => mkWrapper key.toRKey expire f
  match key with
  | .strKey _ => .decorator d
  | .callable f => .wrapped (d f)

/-! ## Synchronous service (`redis_service.py`)

Class-level state: `_instance`, `_client` and the construction history.
Instances are identified by allocation numbers. -/

/-- Connection parameters of the synchronous client. -/
structure SyncCfg where
  host : String
  port : Nat
  username : Option String
  password : Option String
  db : Nat
deriving DecidableEq, Repr

/-- Class-level state of `RedisService`: `_instance` (by object id) and
`_client`, plus the number of constructor bodies run and an allocation
counter for fresh object ids. -/
structure SyncClassState where
  inst : Option Nat
  client : Option SyncCfg
  ctorRuns : Nat
  nextId : Nat
deriving DecidableEq, Repr

/-- State of `RedisService` before any call. -/
def SyncClassState.start : SyncClassState :=
  { inst := none, client := none, ctorRuns := 0, nextId := 0 }

/-- `cls(host, ...)`: allocate a fresh object and run `__init__`, which
raises `RedisAlreadyInitializedException` when `_client` is already set and
otherwise creates the class-level client. -/
def RedisService.construct (cfg : SyncCfg) (st : SyncClassState) :
    Except PyError (Nat × SyncClassState) :=
  if st.client.isSome then .error (.alreadyInitialized alreadyInitMsg)
  else
    .ok (st.nextId,
      { st with client := some cfg, ctorRuns := st.ctorRuns + 1,
                nextId := st.nextId + 1 })

/-- `initialize(host, ...)` (renamed here): under `cls._lock`, construct the
instance only when `_instance is None`, then return `cls._instance`. -/
def RedisService.initClass (cfg : SyncCfg) (st : SyncClassState) :
    Except PyError (Nat × SyncClassState) :=
  match st.inst with
  | some i => .ok (i, st)
  | none =>
    match RedisService.construct cfg st with
    | .error e => .error e
    | .ok r => .ok (r.1, { r.2 with inst := some r.1 })

/-- `get_instance()`: raises `RedisNotInitializedException` when
`_instance is None`. -/
def RedisService.get_instance (st : SyncClassState) : Except PyError Nat :=
  match st.inst with
  | none => .error (.notInitialized notInitMsg)
  | some i => .ok i

/-- `set(key, value, ex)`: goes straight to `RedisService._client`; if that
is `None`, Python raises an `AttributeError`. -/
def RedisService.setOp (st : SyncClassState) (store : Store) (k v : String)
    (ex : Option Nat) : Except PyError (Store × List Cmd) :=
  match st.client with
  | none => .error (.attributeError "NoneType object has no attribute set")
  | some _ => .ok (store.setK (.str k) v, [Cmd.cSet (.str k) v ex])

/-- `get(key)`: reads through `RedisService._client`. -/
def RedisService.getOp (st : SyncClassState) (store : Store) (k : String) :
    Except PyError (Option String × List Cmd) :=
  match st.client with
  | none => .error (.attributeError "NoneType object has no attribute get")
  | some _ => .ok (store.getK (.str k), [Cmd.cGet (.str k)])

/-- `close()`: `if RedisService._client: RedisService._client.close()` —
closes the network client but leaves every class attribute in place. -/
def RedisService.close (st : SyncClassState) : SyncClassState × List Cmd :=
  (st, if st.client.isSome then [Cmd.cCloseClient] else [])

/-! ## Interleaving model of concurrent first-time creation

Two execution units race through the creation protocol.  For the synchronous
service this is `RedisService.initialize` (lock, check `_instance`, construct,
unlock, return `_instance`); for the asynchronous service it is
`AsyncRedisService.__new__` (unlocked check, lock, re-check, construct,
unlock, return `_instance`).  `AsyncSingletonMeta` is imported from
`src/meta_classes/async_singleton_meta.py`, which is not part of the sources;
per the specification the registry constructs under mutual exclusion on first
call and returns the existing instance without re-invoking the constructor
afterwards, which is exactly the protocol modelled here.  Every interleaving
of the two units is explored. -/

/-- One execution unit: program counter and the value it returned (the object
id it obtained), if it has finished. -/
structure ThSt where
  pc : Nat
  ret : Option Nat
deriving DecidableEq, Repr

/-- Global state of the race: lock owner, class attributes, construction
count, allocation counter, and the two units. -/
structure GState where
  lockBy : Option Nat
  inst : Option Nat
  client : Bool
  ctorRuns : Nat
  nextId : Nat
  th0 : ThSt
  th1 : ThSt
deriving DecidableEq, Repr

/-- Both units at the start of the protocol, nothing constructed. -/
def GState.start : GState :=
  { lockBy := none, inst := none, client := false, ctorRuns := 0, nextId := 0,
    th0 := { pc := 0, ret := none }, th1 := { pc := 0, ret := none } }

/-- Read the local state of unit `tid`. -/
def GState.th (g : GState) (tid : Nat) : ThSt :=
  if tid = 0 then g.th0 else g.th1

/-- Replace the local state of unit `tid`. -/
def GState.setTh (g : GState) (tid : Nat) (t : ThSt) : GState :=
  if tid = 0 then { g with th0 := t } else { g with th1 := t }

/-- One step of unit `tid` running `RedisService.initialize`:
pc 0 acquire `cls._lock`; pc 1 test `_instance is None`; pc 2 run
`cls._instance = cls(...)` (fresh id, `__init__` sets `_client`); pc 3
release the lock; pc 4 `return cls._instance`.  An empty list means the unit
cannot move (blocked on the lock, or finished). -/
def stepSyncInit (tid : Nat) (g : GState) : List GState :=
  let t := g.th tid
  match t.pc with
  | 0 =>
    if g.lockBy = none then
      [(({ g with lockBy := some tid } : GState)).setTh tid { t with pc := 1 }]
    else []
  | 1 =>
    match g.inst with
    | some _ => [g.setTh tid { t with pc := 3 }]
    | none => [g.setTh tid { t with pc := 2 }]
  | 2 =>
    if g.client then []
    else
      [(({ g with
            inst := some g.nextId
            client := true
            ctorRuns := g.ctorRuns + 1
            nextId := g.nextId + 1 } : GState)).setTh tid { t with pc := 3 }]
  | 3 => [(({ g with lockBy := none } : GState)).setTh tid { t with pc := 4 }]
  | 4 => [g.setTh tid { pc := 5, ret := g.inst }]
  | _ => []

/-- One step of unit `tid` running `AsyncRedisService.__new__`:
pc 0 unlocked test of `cls._instance`; pc 1 acquire `cls._new_lock`; pc 2
re-test and construct (`super().__new__(cls)`) when still absent; pc 3
release; pc 4 `return cls._instance`. -/
def stepAsyncNew (tid : Nat) (g : GState) : List GState :=
  let t := g.th tid
  match t.pc with
  | 0 =>
    match g.inst with
    | some _ => [g.setTh tid { t with pc := 4 }]
    | none => [g.setTh tid { t with pc := 1 }]
  | 1 =>
    if g.lockBy = none then
      [(({ g with lockBy := some tid } : GState)).setTh tid { t with pc := 2 }]
    else []
  | 2 =>
    match g.inst with
    | some _ => [g.setTh tid { t with pc := 3 }]
    | none =>
      [(({ g with
            inst := some g.nextId
            ctorRuns := g.ctorRuns + 1
            nextId := g.nextId + 1 } : GState)).setTh tid { t with pc := 3 }]
  | 3 => [(({ g with lockBy := none } : GState)).setTh tid { t with pc := 4 }]
  | 4 => [g.setTh tid { pc := 5, ret := g.inst }]
  | _ => []

/-- All successors of a global state under a per-unit step function. -/
def succs (stp : Nat → GState → List GState) (g : GState) : List GState :=
  stp 0 g ++ stp 1 g

/-- Reachability along `succs stp` from `a`. -/
inductive Reaches (stp : Nat → GState → List GState) : GState → GState → Prop
  | refl (a : GState) : Reaches stp a a
  | tail {a b c : GState} : Reaches stp a b → c ∈ succs stp b → Reaches stp a c

/-- Both units have returned. -/
def GState.finished (g : GState) : Prop := g.th0.pc = 5 ∧ g.th1.pc = 5

/-- The singleton outcome: both units hold the same object, and the
constructor ran exactly once. -/
def GState.singletonOutcome (g : GState) : Prop :=
  g.th0.ret = g.th1.ret ∧ g.th0.ret.isSome = true ∧ g.ctorRuns = 1

/-- Iterated breadth expansion of the reachable set. -/
def reachList (stp : Nat → GState → List GState) : Nat → List GState
  | 0 => [GState.start]
  | n + 1 =>
    let l := reachList stp n
    (l ++ l.flatMap (succs stp)).dedup

/-- A step-closed list containing the start state contains everything the
start state reaches. -/
theorem mem_of_reaches {stp : Nat → GState → List GState} (R : List GState)
    (hc : ∀ s ∈ R, ∀ u ∈ succs stp s, u ∈ R) {b : GState}
    (h : Reaches stp GState.start b) (h0 : GState.start ∈ R) : b ∈ R := by
  induction h with
  | refl => exact h0
  | tail _ hmem ih => exact hc _ ih _ hmem

/-! ## Shared lemmas and concrete fixtures -/

/-- Reading back the key just written yields the written value. -/
theorem Store.getK_setK (s : Store) (k : RKey) (v : String) :
    (s.setK k v).getK k = some v := by
  simp [Store.setK, Store.getK]

/-- Every state listed by `reachList` is reachable from the start state. -/
theorem reaches_of_mem_reachList {stp : Nat → GState → List GState} :
    ∀ (n : Nat) {s : GState}, s ∈ reachList stp n →
      Reaches stp GState.start s := by
  intro n
  induction n with
  | zero =>
    intro s hs
    simp [reachList] at hs
    subst hs
    exact Reaches.refl _
  | succ n ih =>
    intro s hs
    simp only [reachList, List.mem_dedup, List.mem_append, List.mem_flatMap] at hs
    rcases hs with h | ⟨b, hb, hsb⟩
    · exact ih h
    · exact Reaches.tail (ih hb) hsb

/-- Whether a result is the typed `RedisNotInitializedException`. -/
def Except.errIsNotInit {α : Type} : Except PyError α → Bool
  | .error (.notInitialized _) => true
  | _ => false

/-- The connection parameters used by `testredis.py`. -/
def cfgA : SyncCfg :=
  { host := "localhost", port := 6379, username := some "default",
    password := some "redispw", db := 0 }

/-- Pool parameters from the module's own usage example. -/
def cfgOn : PoolCfg :=
  { host := "localhost", port := 6379, db := 0, password := none,
    max_connections := 200 }

/-- An async service whose pool has been configured. -/
def svcOn : ARS := { pool := some cfgOn, client := some cfgOn }

/-- A wrapped operation returning "r1" on its first call and "r2" later. -/
def fR : PyFunc Nat :=
  { fid := 7, run := fun n => (n + 1, if n = 0 then "r1" else "r2") }

/-! ## C1 -/

/-- C1 (counterexample): starting from the fresh class state, a first
`initialize` succeeds, and a second `initialize` on the resulting state
returns the existing instance normally instead of raising
`AlreadyInitialized`. -/
theorem c1_double_init_no_raise :
    RedisService.initClass cfgA SyncClassState.start =
      .ok (0, { inst := some 0, client := some cfgA, ctorRuns := 1, nextId := 1 }) ∧
    RedisService.initClass cfgA
        { inst := some 0, client := some cfgA, ctorRuns := 1, nextId := 1 } =
      .ok (0, { inst := some 0, client := some cfgA, ctorRuns := 1, nextId := 1 }) := by
  constructor <;> rfl

/-- C1 (amended): after any successful `initialize`, every subsequent
`initialize` call returns the existing instance without raising; the
`AlreadyInitialized` failure arises only when the constructor runs while a
client already exists, i.e. when a client is set but no instance is
recorded. -/
theorem initClass_second_call_returns_existing :
    (∀ (cfg cfg2 : SyncCfg) (st st2 : SyncClassState) (i : Nat),
      RedisService.initClass cfg st = .ok (i, st2) →
      RedisService.initClass cfg2 st2 = .ok (i, st2)) ∧
    (∀ (cfg : SyncCfg) (st : SyncClassState),
      st.inst = none → st.client.isSome = true →
      RedisService.initClass cfg st = .error (.alreadyInitialized alreadyInitMsg)) := by
  constructor
  · intro cfg cfg2 st st2 i h
    have h2 : st2.inst = some i := by
      unfold RedisService.initClass RedisService.construct at h
      cases hst : st.inst with
      | some j =>
        rw [hst] at h
        simp only [Except.ok.injEq, Prod.mk.injEq] at h
        rw [← h.2, ← h.1, hst]
      | none =>
        rw [hst] at h
        by_cases hc : st.client.isSome
        · simp [hc] at h
        · simp only [hc, Bool.false_eq_true, if_false, reduceIte] at h
          simp only [Except.ok.injEq, Prod.mk.injEq] at h
          rw [← h.2, ← h.1]
    unfold RedisService.initClass
    rw [h2]
  · intro cfg st h0 hc
    unfold RedisService.initClass RedisService.construct
    rw [h0, hc]
    rfl

/-- C1 (witness): both parts applied at concrete states. -/
theorem initClass_second_call_returns_existing_witness :
    RedisService.initClass cfgA
        { inst := some 0, client := some cfgA, ctorRuns := 1, nextId := 1 } =
      .ok (0, { inst := some 0, client := some cfgA, ctorRuns := 1, nextId := 1 }) ∧
    RedisService.initClass cfgA
        { inst := none, client := some cfgA, ctorRuns := 1, nextId := 1 } =
      .error (.alreadyInitialized alreadyInitMsg) := by
  constructor
  · exact initClass_second_call_returns_existing.1 cfgA cfgA SyncClassState.start
      { inst := some 0, client := some cfgA, ctorRuns := 1, nextId := 1 } 0 rfl
  · exact initClass_second_call_returns_existing.2 cfgA
      { inst := none, client := some cfgA, ctorRuns := 1, nextId := 1 } rfl rfl

/-! ## C2 -/

/-- C2 (counterexample): on the unconfigured async service, `get_connection`
fails with the plain untyped `Exception`, not the typed
`RedisNotInitializedException`. -/
theorem c2_async_uninit_error_untyped :
    AsyncRedisService.get_connection { pool := none, client := none } =
      .error (.genericExc poolNotSetMsg) ∧
    Except.errIsNotInit
        (AsyncRedisService.get_connection { pool := none, client := none }) = false := by
  constructor <;> rfl

/-- C2 (amended): before initialization succeeded, sync `get_instance`
raises the typed `NotInitialized` error, while async `get_connection` — and
hence every async key-value operation — fails with an untyped generic
exception carrying the "Connection pool not set" message, not the typed
`NotInitialized`. -/
theorem uninitialized_access_failures :
    (∀ st : SyncClassState, st.inst = none →
      RedisService.get_instance st = .error (.notInitialized notInitMsg)) ∧
    (∀ svc : ARS, svc.client = none →
      AsyncRedisService.get_connection svc = .error (.genericExc poolNotSetMsg) ∧
      (∀ (store : Store) (k : RKey),
        AsyncRedisService.get svc store k = .error (.genericExc poolNotSetMsg)) ∧
      (∀ (store : Store) (k : RKey) (v : String) (ex : Option Nat),
        AsyncRedisService.set svc store k v ex = .error (.genericExc poolNotSetMsg))) := by
  constructor
  · intro st h
    unfold RedisService.get_instance
    rw [h]
  · intro svc h
    have hc : AsyncRedisService.get_connection svc = .error (.genericExc poolNotSetMsg) := by
      unfold AsyncRedisService.get_connection
      rw [h]
    refine ⟨hc, fun store k => ?_, fun store k v ex => ?_⟩
    · unfold AsyncRedisService.get
      rw [hc]
    · unfold AsyncRedisService.set
      rw [hc]

/-- C2 (witness): both failures observed on fresh states. -/
theorem uninitialized_access_failures_witness :
    RedisService.get_instance SyncClassState.start =
      .error (.notInitialized notInitMsg) ∧
    AsyncRedisService.get { pool := none, client := none } [] (.str "k") =
      .error (.genericExc poolNotSetMsg) := by
  constructor
  · exact uninitialized_access_failures.1 SyncClassState.start rfl
  · exact (uninitialized_access_failures.2 { pool := none, client := none } rfl).2.1
      [] (.str "k")

/-! ## C3 -/

/-- C3 (counterexample): after a successful `initialize`, the sync `close()`
leaves `_instance` and `_client` in place (it only closes the network
client), and a subsequent `get_instance` still succeeds instead of raising
`NotInitialized`. -/
theorem c3_sync_close_keeps_references :
    RedisService.close { inst := some 0, client := some cfgA, ctorRuns := 1, nextId := 1 } =
      ({ inst := some 0, client := some cfgA, ctorRuns := 1, nextId := 1 },
        [Cmd.cCloseClient]) ∧
    RedisService.get_instance
        { inst := some 0, client := some cfgA, ctorRuns := 1, nextId := 1 } = .ok 0 := by
  constructor <;> rfl

/-- C3 (amended): the async `aclose` (also reached by exiting the managed
block) clears both the pool and the client reference, after which
`get_connection` fails (with the untyped pool-not-set error, not the typed
`NotInitialized`) until `set_connection_pool` re-configures the service; the
sync `close` leaves the class references untouched. -/
theorem close_state_semantics :
    (∀ svc : ARS,
      (AsyncRedisService.aclose svc).1 = { pool := none, client := none } ∧
      AsyncRedisService.aexit svc = AsyncRedisService.aclose svc ∧
      AsyncRedisService.get_connection (AsyncRedisService.aclose svc).1 =
        .error (.genericExc poolNotSetMsg) ∧
      (∀ cfg : PoolCfg,
        AsyncRedisService.get_connection
          (AsyncRedisService.set_connection_pool cfg (AsyncRedisService.aclose svc).1) =
          .ok cfg)) ∧
    (∀ st : SyncClassState, (RedisService.close st).1 = st) := by
  constructor
  · intro svc
    exact ⟨rfl, rfl, rfl, fun cfg => rfl⟩
  · intro st
    rfl

/-! ## C4 -/

/-- C4: the wrapper produced by `set_decorator` with a fixed literal key is
write-through on every call: it runs the wrapped operation, stores the fresh
result under the key with the given expiry, and returns that result
unchanged; the only client command it issues is the single `SET` — in
particular no `GET` ever consults a previously cached value. -/
theorem memoize_write_through :
    ∀ {A : Type} (s : String) (e : Option Nat) (d : PyFunc A → Wrapped A),
      AsyncRedisService.set_decorator (KeyArg.strKey s) e = DecResult.decorator d →
      ∀ (f : PyFunc A) (svc : ARS) (cfg : PoolCfg), svc.client = some cfg →
        ∀ (store : Store) (a : A),
          d f a svc store =
            .ok ((f.run a).2, (f.run a).1,
                 store.setK (RKey.str s) (f.run a).2,
                 [Cmd.cSet (RKey.str s) (f.run a).2 e]) ∧
          (∀ k : RKey, Cmd.cGet k ∉ [Cmd.cSet (RKey.str s) (f.run a).2 e]) := by
  intro A s e d hd f svc cfg hcl store a
  have hde : d = fun f => mkWrapper (RKey.str s) e f := by
    unfold AsyncRedisService.set_decorator at hd
    simp only [DecResult.decorator.injEq] at hd
    exact hd.symm
  subst hde
  constructor
  · unfold mkWrapper AsyncRedisService.set AsyncRedisService.get_connection
    simp only [hcl]
  · intro k hk
    simp at hk

/-- C4 (witness): the wrapper at the fixed key "fixed-key" over the empty
store, first call of the operation. -/
theorem memoize_write_through_witness :
    mkWrapper (RKey.str "fixed-key") (some 60) fR 0 svcOn [] =
      .ok ("r1", 1, [(RKey.str "fixed-key", "r1")],
           [Cmd.cSet (RKey.str "fixed-key") "r1" (some 60)]) := by
  have h := (memoize_write_through "fixed-key" (some 60)
    (fun f => mkWrapper (RKey.str "fixed-key") (some 60) f) rfl fR svcOn cfgOn rfl [] 0).1
  exact h

/-! ## C5 -/

/-- C5: `get_by_pattern` on a configured service returns the empty mapping
and issues no batch-fetch (`MGET`) command when no key matches the pattern,
and otherwise returns the zip of the matched-key list with the batch-fetch
result for those keys, in matching order. -/
theorem get_by_pattern_empty_and_zip :
    ∀ (svc : ARS) (cfg : PoolCfg), svc.client = some cfg →
      ∀ (store : Store) (pat : String),
        (store.keysMatching pat = [] →
          AsyncRedisService.get_by_pattern svc store pat = .ok ([], [Cmd.cKeys pat]) ∧
          (∀ ks : List RKey, Cmd.cMget ks ∉ [Cmd.cKeys pat])) ∧
        (store.keysMatching pat ≠ [] →
          AsyncRedisService.get_by_pattern svc store pat =
            .ok ((store.keysMatching pat).zip (store.mgetK (store.keysMatching pat)),
                 [Cmd.cKeys pat, Cmd.cMget (store.keysMatching pat)])) := by
  intro svc cfg hcl store pat
  constructor
  · intro hemp
    constructor
    · unfold AsyncRedisService.get_by_pattern AsyncRedisService.get_connection
      simp only [hcl, hemp, List.isEmpty_nil, if_true]
    · intro ks hk
      simp at hk
  · intro hne
    unfold AsyncRedisService.get_by_pattern AsyncRedisService.get_connection
    have : store.keysMatching pat ≠ [] := hne
    simp only [hcl]
    rw [if_neg (by simpa [List.isEmpty_iff] using hne)]

/-- C5 (witness): no key matches "ns:*" in the empty store; with `ns:1` and
`ns:2` present the spec example mapping is returned. -/
theorem get_by_pattern_empty_and_zip_witness :
    AsyncRedisService.get_by_pattern svcOn [] "ns:*" = .ok ([], [Cmd.cKeys "ns:*"]) ∧
    AsyncRedisService.get_by_pattern svcOn
        [(RKey.str "ns:1", "x"), (RKey.str "ns:2", "y")] "ns:*" =
      .ok ([(RKey.str "ns:1", some "x"), (RKey.str "ns:2", some "y")],
           [Cmd.cKeys "ns:*",
            Cmd.cMget [RKey.str "ns:1", RKey.str "ns:2"]]) := by
  constructor
  · exact ((get_by_pattern_empty_and_zip svcOn cfgOn rfl [] "ns:*").1 rfl).1
  · have h := (get_by_pattern_empty_and_zip svcOn cfgOn rfl
      [(RKey.str "ns:1", "x"), (RKey.str "ns:2", "y")] "ns:*").2 (by decide)
    exact h

/-! ## C6 -/

/-- C6: on a configured service, `exists` returns exactly the comparison of
the underlying existence count with 1, and that comparison is true exactly
when the count is 1 — any other count yields false. -/
theorem exists_strict_one_count :
    (∀ (svc : ARS) (cfg : PoolCfg), svc.client = some cfg →
      ∀ (store : Store) (k : RKey),
        AsyncRedisService.existsOp svc store k =
          .ok (existsFromCount (store.existsCount k), [Cmd.cExists k])) ∧
    (∀ n : Nat, existsFromCount n = true ↔ n = 1) := by
  constructor
  · intro svc cfg hcl store k
    unfold AsyncRedisService.existsOp AsyncRedisService.get_connection
    simp only [hcl]
  · intro n
    simp [existsFromCount]

/-- C6 (witness): a present key reads as existing; a count of 2 is false. -/
theorem exists_strict_one_count_witness :
    AsyncRedisService.existsOp svcOn [(RKey.str "k", "v")] (RKey.str "k") =
      .ok (true, [Cmd.cExists (RKey.str "k")]) ∧
    existsFromCount 2 = false := by
  constructor
  · exact exists_strict_one_count.1 svcOn cfgOn rfl [(RKey.str "k", "v")] (RKey.str "k")
  · have h := (exists_strict_one_count.2 2).not
    decide

/-! ## C7 -/

/-- C7: for both variants, on a service whose client is present, a
successful `set(k, v)` followed immediately by `get(k)` yields `v`, and
`get` on a key the store holds nothing for returns the absent result `none`
rather than an error. -/
theorem set_get_roundtrip :
    (∀ (st : SyncClassState) (cfg : SyncCfg), st.client = some cfg →
      ∀ (store : Store) (k v : String) (ex : Option Nat),
        RedisService.setOp st store k v ex =
          .ok (store.setK (.str k) v, [Cmd.cSet (.str k) v ex]) ∧
        RedisService.getOp st (store.setK (.str k) v) k =
          .ok (some v, [Cmd.cGet (.str k)]) ∧
        (store.getK (.str k) = none →
          RedisService.getOp st store k = .ok (none, [Cmd.cGet (.str k)]))) ∧
    (∀ (svc : ARS) (cfg : PoolCfg), svc.client = some cfg →
      ∀ (store : Store) (k : RKey) (v : String) (ex : Option Nat),
        AsyncRedisService.set svc store k v ex =
          .ok (true, store.setK k v, [Cmd.cSet k v ex]) ∧
        AsyncRedisService.get svc (store.setK k v) k =
          .ok (some v, [Cmd.cGet k]) ∧
        (store.getK k = none →
          AsyncRedisService.get svc store k = .ok (none, [Cmd.cGet k]))) := by
  constructor
  · intro st cfg hcl store k v ex
    refine ⟨?_, ?_, ?_⟩
    · unfold RedisService.setOp
      rw [hcl]
    · unfold RedisService.getOp
      rw [hcl, Store.getK_setK]
    · intro habs
      unfold RedisService.getOp
      rw [hcl, habs]
  · intro svc cfg hcl store k v ex
    refine ⟨?_, ?_, ?_⟩
    · unfold AsyncRedisService.set AsyncRedisService.get_connection
      simp only [hcl]
    · unfold AsyncRedisService.get AsyncRedisService.get_connection
      simp only [hcl, Store.getK_setK]
    · intro habs
      unfold AsyncRedisService.get AsyncRedisService.get_connection
      simp only [hcl, habs]

/-- C7 (witness): the round trip and the absent read at concrete inputs. -/
theorem set_get_roundtrip_witness :
    RedisService.setOp { inst := some 0, client := some cfgA, ctorRuns := 1, nextId := 1 }
        [] "mykey" "Hello Devendra" (some 60) =
      .ok ([(RKey.str "mykey", "Hello Devendra")],
           [Cmd.cSet (RKey.str "mykey") "Hello Devendra" (some 60)]) ∧
    RedisService.getOp { inst := some 0, client := some cfgA, ctorRuns := 1, nextId := 1 }
        [(RKey.str "mykey", "Hello Devendra")] "mykey" =
      .ok (some "Hello Devendra", [Cmd.cGet (RKey.str "mykey")]) ∧
    AsyncRedisService.get svcOn [] (RKey.str "never") =
      .ok (none, [Cmd.cGet (RKey.str "never")]) := by
  have h := set_get_roundtrip.1
    { inst := some 0, client := some cfgA, ctorRuns := 1, nextId := 1 } cfgA rfl
    [] "mykey" "Hello Devendra" (some 60)
  have h2 := (set_get_roundtrip.2 svcOn cfgOn rfl [] (RKey.str "never") "v" none).2.2 rfl
  exact ⟨h.1, h.2.1, h2⟩

/-! ## C8 -/

/-- C8: applied bare — the `key` argument being the decorated callable
itself — `set_decorator` detects the callable and returns the wrapped
callable in place, not an intermediate decorator. -/
theorem set_decorator_bare_wraps_in_place :
    ∀ {A : Type} (f : PyFunc A) (e : Option Nat),
      AsyncRedisService.set_decorator (KeyArg.callable f) e =
        DecResult.wrapped (mkWrapper (RKey.func f.fid) e f) := by
  intro A f e
  rfl

/-! ## C9 -/

instance (g : GState) : Decidable g.finished :=
  decidable_of_iff (g.th0.pc = 5 ∧ g.th1.pc = 5) Iff.rfl

instance (g : GState) : Decidable g.singletonOutcome :=
  decidable_of_iff
    (g.th0.ret = g.th1.ret ∧ g.th0.ret.isSome = true ∧ g.ctorRuns = 1) Iff.rfl

/-- The states reachable in the race through `RedisService.initialize`
(computed from `reachList stepSyncInit`; checked closed under steps below). -/
def invSetA : List GState := [
    GState.mk none none false 0 0 (ThSt.mk 0 none) (ThSt.mk 0 none),
    GState.mk (some 0) none false 0 0 (ThSt.mk 1 none) (ThSt.mk 0 none),
    GState.mk (some 1) none false 0 0 (ThSt.mk 0 none) (ThSt.mk 1 none),
    GState.mk (some 0) none false 0 0 (ThSt.mk 2 none) (ThSt.mk 0 none),
    GState.mk (some 1) none false 0 0 (ThSt.mk 0 none) (ThSt.mk 2 none),
    GState.mk (some 0) (some 0) true 1 1 (ThSt.mk 3 none) (ThSt.mk 0 none),
    GState.mk (some 1) (some 0) true 1 1 (ThSt.mk 0 none) (ThSt.mk 3 none),
    GState.mk none (some 0) true 1 1 (ThSt.mk 4 none) (ThSt.mk 0 none),
    GState.mk none (some 0) true 1 1 (ThSt.mk 0 none) (ThSt.mk 4 none),
    GState.mk none (some 0) true 1 1 (ThSt.mk 5 (some 0)) (ThSt.mk 0 none),
    GState.mk (some 1) (some 0) true 1 1 (ThSt.mk 4 none) (ThSt.mk 1 none),
    GState.mk (some 0) (some 0) true 1 1 (ThSt.mk 1 none) (ThSt.mk 4 none),
    GState.mk none (some 0) true 1 1 (ThSt.mk 0 none) (ThSt.mk 5 (some 0)),
    GState.mk (some 1) (some 0) true 1 1 (ThSt.mk 5 (some 0)) (ThSt.mk 1 none),
    GState.mk (some 1) (some 0) true 1 1 (ThSt.mk 4 none) (ThSt.mk 3 none),
    GState.mk (some 0) (some 0) true 1 1 (ThSt.mk 3 none) (ThSt.mk 4 none),
    GState.mk (some 0) (some 0) true 1 1 (ThSt.mk 1 none) (ThSt.mk 5 (some 0)),
    GState.mk (some 1) (some 0) true 1 1 (ThSt.mk 5 (some 0)) (ThSt.mk 3 none),
    GState.mk none (some 0) true 1 1 (ThSt.mk 4 none) (ThSt.mk 4 none),
    GState.mk (some 0) (some 0) true 1 1 (ThSt.mk 3 none) (ThSt.mk 5 (some 0)),
    GState.mk none (some 0) true 1 1 (ThSt.mk 5 (some 0)) (ThSt.mk 4 none),
    GState.mk none (some 0) true 1 1 (ThSt.mk 4 none) (ThSt.mk 5 (some 0)),
    GState.mk none (some 0) true 1 1 (ThSt.mk 5 (some 0)) (ThSt.mk 5 (some 0))]

/-- The states reachable in the race through `AsyncRedisService.__new__`
(computed from `reachList stepAsyncNew`; checked closed under steps below). -/
def invSetB : List GState := [
    GState.mk none none false 0 0 (ThSt.mk 0 none) (ThSt.mk 0 none),
    GState.mk none none false 0 0 (ThSt.mk 1 none) (ThSt.mk 0 none),
    GState.mk none none false 0 0 (ThSt.mk 0 none) (ThSt.mk 1 none),
    GState.mk (some 0) none false 0 0 (ThSt.mk 2 none) (ThSt.mk 0 none),
    GState.mk none none false 0 0 (ThSt.mk 1 none) (ThSt.mk 1 none),
    GState.mk (some 1) none false 0 0 (ThSt.mk 0 none) (ThSt.mk 2 none),
    GState.mk (some 0) (some 0) false 1 1 (ThSt.mk 3 none) (ThSt.mk 0 none),
    GState.mk (some 0) none false 0 0 (ThSt.mk 2 none) (ThSt.mk 1 none),
    GState.mk (some 1) none false 0 0 (ThSt.mk 1 none) (ThSt.mk 2 none),
    GState.mk (some 1) (some 0) false 1 1 (ThSt.mk 0 none) (ThSt.mk 3 none),
    GState.mk none (some 0) false 1 1 (ThSt.mk 4 none) (ThSt.mk 0 none),
    GState.mk (some 0) (some 0) false 1 1 (ThSt.mk 3 none) (ThSt.mk 1 none),
    GState.mk (some 1) (some 0) false 1 1 (ThSt.mk 1 none) (ThSt.mk 3 none),
    GState.mk none (some 0) false 1 1 (ThSt.mk 0 none) (ThSt.mk 4 none),
    GState.mk none (some 0) false 1 1 (ThSt.mk 5 (some 0)) (ThSt.mk 0 none),
    GState.mk none (some 0) false 1 1 (ThSt.mk 4 none) (ThSt.mk 1 none),
    GState.mk none (some 0) false 1 1 (ThSt.mk 1 none) (ThSt.mk 4 none),
    GState.mk none (some 0) false 1 1 (ThSt.mk 0 none) (ThSt.mk 5 (some 0)),
    GState.mk none (some 0) false 1 1 (ThSt.mk 5 (some 0)) (ThSt.mk 1 none),
    GState.mk (some 1) (some 0) false 1 1 (ThSt.mk 4 none) (ThSt.mk 2 none),
    GState.mk (some 0) (some 0) false 1 1 (ThSt.mk 2 none) (ThSt.mk 4 none),
    GState.mk none (some 0) false 1 1 (ThSt.mk 1 none) (ThSt.mk 5 (some 0)),
    GState.mk (some 1) (some 0) false 1 1 (ThSt.mk 5 (some 0)) (ThSt.mk 2 none),
    GState.mk (some 1) (some 0) false 1 1 (ThSt.mk 4 none) (ThSt.mk 3 none),
    GState.mk (some 0) (some 0) false 1 1 (ThSt.mk 3 none) (ThSt.mk 4 none),
    GState.mk (some 0) (some 0) false 1 1 (ThSt.mk 2 none) (ThSt.mk 5 (some 0)),
    GState.mk (some 1) (some 0) false 1 1 (ThSt.mk 5 (some 0)) (ThSt.mk 3 none),
    GState.mk none (some 0) false 1 1 (ThSt.mk 4 none) (ThSt.mk 4 none),
    GState.mk (some 0) (some 0) false 1 1 (ThSt.mk 3 none) (ThSt.mk 5 (some 0)),
    GState.mk none (some 0) false 1 1 (ThSt.mk 5 (some 0)) (ThSt.mk 4 none),
    GState.mk none (some 0) false 1 1 (ThSt.mk 4 none) (ThSt.mk 5 (some 0)),
    GState.mk none (some 0) false 1 1 (ThSt.mk 5 (some 0)) (ThSt.mk 5 (some 0))]

/-- C9: in every interleaving of two execution units racing through
first-time creation — threads through `RedisService.initialize`, and units
through `AsyncRedisService.__new__` under the registry protocol — once both
have returned, they hold the same instance and the constructor ran exactly
once. -/
theorem singleton_race_same_instance_once :
    (∀ s : GState, Reaches stepSyncInit GState.start s → s.finished →
      s.singletonOutcome) ∧
    (∀ s : GState, Reaches stepAsyncNew GState.start s → s.finished →
      s.singletonOutcome) := by
  constructor
  · intro s hr hf
    have hm := mem_of_reaches invSetA (by decide) hr (by decide)
    exact (by decide :
      ∀ s ∈ invSetA, s.finished → s.singletonOutcome) s hm hf
  · intro s hr hf
    have hm := mem_of_reaches invSetB (by decide) hr (by decide)
    exact (by decide :
      ∀ s ∈ invSetB, s.finished → s.singletonOutcome) s hm hf

/-- C9 (witness): a complete interleaving of each protocol — the first unit
runs to completion, then the second — ends finished with the singleton
outcome. -/
theorem singleton_race_same_instance_once_witness :
    GState.singletonOutcome
      (GState.mk none (some 0) true 1 1 (ThSt.mk 5 (some 0)) (ThSt.mk 5 (some 0))) ∧
    GState.singletonOutcome
      (GState.mk none (some 0) false 1 1 (ThSt.mk 5 (some 0)) (ThSt.mk 5 (some 0))) := by
  constructor
  · have h1 : Reaches stepSyncInit GState.start
        (GState.mk (some 0) none false 0 0 (ThSt.mk 1 none) (ThSt.mk 0 none)) :=
      Reaches.tail (Reaches.refl _) (by decide)
    have h2 : Reaches stepSyncInit GState.start
        (GState.mk (some 0) none false 0 0 (ThSt.mk 2 none) (ThSt.mk 0 none)) :=
      Reaches.tail h1 (by decide)
    have h3 : Reaches stepSyncInit GState.start
        (GState.mk (some 0) (some 0) true 1 1 (ThSt.mk 3 none) (ThSt.mk 0 none)) :=
      Reaches.tail h2 (by decide)
    have h4 : Reaches stepSyncInit GState.start
        (GState.mk none (some 0) true 1 1 (ThSt.mk 4 none) (ThSt.mk 0 none)) :=
      Reaches.tail h3 (by decide)
    have h5 : Reaches stepSyncInit GState.start
        (GState.mk none (some 0) true 1 1 (ThSt.mk 5 (some 0)) (ThSt.mk 0 none)) :=
      Reaches.tail h4 (by decide)
    have h6 : Reaches stepSyncInit GState.start
        (GState.mk (some 1) (some 0) true 1 1 (ThSt.mk 5 (some 0)) (ThSt.mk 1 none)) :=
      Reaches.tail h5 (by decide)
    have h7 : Reaches stepSyncInit GState.start
        (GState.mk (some 1) (some 0) true 1 1 (ThSt.mk 5 (some 0)) (ThSt.mk 3 none)) :=
      Reaches.tail h6 (by decide)
    have h8 : Reaches stepSyncInit GState.start
        (GState.mk none (some 0) true 1 1 (ThSt.mk 5 (some 0)) (ThSt.mk 4 none)) :=
      Reaches.tail h7 (by decide)
    have h9 : Reaches stepSyncInit GState.start
        (GState.mk none (some 0) true 1 1 (ThSt.mk 5 (some 0)) (ThSt.mk 5 (some 0))) :=
      Reaches.tail h8 (by decide)
    exact singleton_race_same_instance_once.1 _ h9 ⟨rfl, rfl⟩
  · have h1 : Reaches stepAsyncNew GState.start
        (GState.mk none none false 0 0 (ThSt.mk 1 none) (ThSt.mk 0 none)) :=
      Reaches.tail (Reaches.refl _) (by decide)
    have h2 : Reaches stepAsyncNew GState.start
        (GState.mk (some 0) none false 0 0 (ThSt.mk 2 none) (ThSt.mk 0 none)) :=
      Reaches.tail h1 (by decide)
    have h3 : Reaches stepAsyncNew GState.start
        (GState.mk (some 0) (some 0) false 1 1 (ThSt.mk 3 none) (ThSt.mk 0 none)) :=
      Reaches.tail h2 (by decide)
    have h4 : Reaches stepAsyncNew GState.start
        (GState.mk none (some 0) false 1 1 (ThSt.mk 4 none) (ThSt.mk 0 none)) :=
      Reaches.tail h3 (by decide)
    have h5 : Reaches stepAsyncNew GState.start
        (GState.mk none (some 0) false 1 1 (ThSt.mk 5 (some 0)) (ThSt.mk 0 none)) :=
      Reaches.tail h4 (by decide)
    have h6 : Reaches stepAsyncNew GState.start
        (GState.mk none (some 0) false 1 1 (ThSt.mk 5 (some 0)) (ThSt.mk 4 none)) :=
      Reaches.tail h5 (by decide)
    have h7 : Reaches stepAsyncNew GState.start
        (GState.mk none (some 0) false 1 1 (ThSt.mk 5 (some 0)) (ThSt.mk 5 (some 0))) :=
      Reaches.tail h6 (by decide)
    exact singleton_race_same_instance_once.2 _ h7 ⟨rfl, rfl⟩

/-! ## C10 -/

/-- C10: when the decorator is used bare, the wrapper it returns stores each
call's result under the decorated function object itself — the `SET` issued
to the store carries the function, not a string key derived from it. -/
theorem bare_memoize_stores_under_function :
    ∀ {A : Type} (f : PyFunc A) (e : Option Nat) (w : Wrapped A),
      AsyncRedisService.set_decorator (KeyArg.callable f) e = DecResult.wrapped w →
      ∀ (svc : ARS) (cfg : PoolCfg), svc.client = some cfg →
        ∀ (store : Store) (a : A),
          w a svc store =
            .ok ((f.run a).2, (f.run a).1,
                 store.setK (RKey.func f.fid) (f.run a).2,
                 [Cmd.cSet (RKey.func f.fid) (f.run a).2 e]) := by
  intro A f e w hw svc cfg hcl store a
  have hwe : w = mkWrapper (RKey.func f.fid) e f := by
    unfold AsyncRedisService.set_decorator at hw
    simp only [DecResult.wrapped.injEq] at hw
    exact hw.symm
  subst hwe
  unfold mkWrapper AsyncRedisService.set AsyncRedisService.get_connection
  simp only [hcl]

/-- C10 (witness): the bare-decorated operation writes its result under the
function object id 7. -/
theorem bare_memoize_stores_under_function_witness :
    mkWrapper (RKey.func 7) none fR 1 svcOn [] =
      .ok ("r2", 2, [(RKey.func 7, "r2")], [Cmd.cSet (RKey.func 7) "r2" none]) := by
  exact bare_memoize_stores_under_function fR none
    (mkWrapper (RKey.func 7) none fR) rfl svcOn cfgOn rfl [] 1
